import Mathlib

/-!
Verification of the sales transaction engine of the Controle-de-estoque
repository: a shallow embedding of the shopping-cart model, the payment
validation, and the finalize/cancel sale workflows of `src/vendas.py` and
`src/validacao_vendas.py`, together with proofs of the specified properties.

Modelling conventions:
* Python floats (monetary values) are modelled as exact rationals `Rat`;
  Python ints as `Int`.
* The remote store (`supabase`) is modelled as explicit collaborator
  functions passed to each operation; a successful single-row fetch is an
  `Option` value.
* Mutating methods are modelled as functions returning the new state
  together with the method's return value.
-/

namespace Vendas

/-- One line of the shopping cart: `ItemCarrinho` of `src/vendas.py`. -/
structure ItemCarrinho where
  produto_id : Int
  descricao : String
  quantidade : Int
  preco_unitario : Rat
  estoque_disponivel : Int
deriving DecidableEq, Repr

/-- `ItemCarrinho.calcular_subtotal`: quantity times unit price. -/
def ItemCarrinho.calcular_subtotal (it : ItemCarrinho) : Rat :=
  (it.quantidade : Rat) * it.preco_unitario

/-- The cart: `Carrinho` of `src/vendas.py` (line list plus the two
discount fields). -/
structure Carrinho where
  itens : List ItemCarrinho
  desconto_percentual : Rat
  desconto_valor : Rat
deriving DecidableEq, Repr

/-- `Carrinho.__init__`: an empty cart with no discounts. -/
def carrinhoVazio : Carrinho := ⟨[], 0, 0⟩

/-- A row of the remote `produtos` table, with the fields the cart code
reads (`preco`, `quantidade`, `descricao`). -/
structure Produto where
  preco : Rat
  quantidade : Int
  descricao : String
deriving DecidableEq, Repr

/-- The remote products table keyed by id: the collaborator behind
`supabase.table("produtos").select(...).eq("id", pid)`. `none` models an
empty result set. -/
abbrev Banco := Int → Option Produto

/-- Update the first list entry whose `produto_id` matches, like the
Python loops that mutate the first matching `ItemCarrinho`. -/
def atualizarPrimeiro (pid : Int) (f : ItemCarrinho → ItemCarrinho) :
    List ItemCarrinho → List ItemCarrinho
  | [] => []
  | it :: rest =>
    if it.produto_id == pid then f it :: rest
    else it :: atualizarPrimeiro pid f rest

/-- Remove the first list entry whose `produto_id` matches (the
`self.itens.pop(i)` of `remover_produto`); `none` when absent. -/
def removerPrimeiro (pid : Int) :
    List ItemCarrinho → Option (List ItemCarrinho)
  | [] => none
  | it :: rest =>
    if it.produto_id == pid then some rest
    else (removerPrimeiro pid rest).map (it :: ·)

/-- `Carrinho.adicionar_produto`: fetch the product, merge into an
existing line or append a new one, failing on a missing product or on a
quantity exceeding the fetched stock. -/
def adicionar_produto (db : Banco) (c : Carrinho) (pid q : Int) :
    Carrinho × Bool :=
  match db pid with
  | none => (c, false)
  | some produto =>
    match c.itens.find? (fun it => it.produto_id == pid) with
    | some item =>
      let nova := item.quantidade + q
      if nova > produto.quantidade then (c, false)
      else
        let itens2 := atualizarPrimeiro pid
          (fun it => { it with quantidade := nova }) c.itens
        ({ c with itens := itens2 }, true)
    | none =>
      if q > produto.quantidade then (c, false)
      else
        ({ c with itens := c.itens ++
            [⟨pid, produto.descricao, q, produto.preco, produto.quantidade⟩] },
         true)

/-- `Carrinho.remover_produto`: drop the first line with this product id,
reporting whether one was found. -/
def remover_produto (c : Carrinho) (pid : Int) : Carrinho × Bool :=
  match removerPrimeiro pid c.itens with
  | some itens2 => ({ c with itens := itens2 }, true)
  | none => (c, false)

/-- `Carrinho.atualizar_quantidade`: replace the first matching line's
quantity, failing when the line is absent, the quantity exceeds the
line's cached stock, or the quantity is not positive. -/
def atualizar_quantidade (c : Carrinho) (pid q : Int) : Carrinho × Bool :=
  match c.itens.find? (fun it => it.produto_id == pid) with
  | none => (c, false)
  | some item =>
    if q > item.estoque_disponivel then (c, false)
    else if q ≤ 0 then (c, false)
    else
      let itens2 := atualizarPrimeiro pid
        (fun it => { it with quantidade := q }) c.itens
      ({ c with itens := itens2 }, true)

/-- `Carrinho.calcular_subtotal`: sum of the line subtotals (0 for an
empty cart). -/
def calcular_subtotal (c : Carrinho) : Rat :=
  if c.itens = [] then 0
  else (c.itens.map ItemCarrinho.calcular_subtotal).sum

/-- `Carrinho.calcular_desconto`: fixed discount when positive, else the
percent discount over the subtotal, else 0. -/
def calcular_desconto (c : Carrinho) : Rat :=
  if c.desconto_valor > 0 then c.desconto_valor
  else if c.desconto_percentual > 0 then
    calcular_subtotal c * c.desconto_percentual / 100
  else 0

/-- `Carrinho.calcular_total`: subtotal minus discount, floored at 0. -/
def calcular_total (c : Carrinho) : Rat :=
  max 0 (calcular_subtotal c - calcular_desconto c)

/-- `Carrinho.aplicar_desconto_percentual`: validate the percentage and
on success set it, zeroing the fixed discount. -/
def aplicar_desconto_percentual (c : Carrinho) (percentual : Rat) :
    Carrinho × Bool :=
  if percentual < 0 ∨ percentual > 100 then (c, false)
  else
    let subtotal := calcular_subtotal c
    let valor_desconto := subtotal * percentual / 100
    if subtotal - valor_desconto < 0 then (c, false)
    else ({ c with desconto_percentual := percentual, desconto_valor := 0 },
          true)

/-- `Carrinho.aplicar_desconto_valor`: validate the fixed amount and on
success set it, zeroing the percent discount. -/
def aplicar_desconto_valor (c : Carrinho) (valor : Rat) : Carrinho × Bool :=
  if valor < 0 then (c, false)
  else
    let subtotal := calcular_subtotal c
    if valor > subtotal then (c, false)
    else if subtotal - valor < 0 then (c, false)
    else ({ c with desconto_valor := valor, desconto_percentual := 0 }, true)

/-- `Carrinho.remover_desconto`: zero both discount fields. -/
def remover_desconto (c : Carrinho) : Carrinho :=
  { c with desconto_percentual := 0, desconto_valor := 0 }

/-- `Carrinho.limpar`: empty the lines and zero both discount fields. -/
def limpar (_c : Carrinho) : Carrinho := carrinhoVazio

/-- One iteration of the `validar_disponibilidade` loop: the possibly
updated line and the optional error message for it. -/
def validarItem (db : Banco) (it : ItemCarrinho) :
    ItemCarrinho × Option String :=
  match db it.produto_id with
  | none =>
    (it, some ("Produto " ++ it.descricao ++ ": não encontrado no banco de dados"))
  | some produto =>
    let estoque_atual := produto.quantidade
    let descricao := produto.descricao
    if it.quantidade > estoque_atual then
      ({ it with estoque_disponivel := estoque_atual },
       some ("Produto " ++ descricao ++ ": estoque insuficiente. Disponível: "
         ++ toString estoque_atual ++ ", Solicitado: " ++ toString it.quantidade))
    else if estoque_atual = 0 then
      ({ it with estoque_disponivel := 0 },
       some ("Produto " ++ descricao ++ ": sem estoque disponível"))
    else (it, none)

/-- `Carrinho.validar_disponibilidade`: re-check stock for every line,
returning the updated cart, the overall verdict and the per-line error
messages. -/
def validar_disponibilidade (db : Banco) (c : Carrinho) :
    Carrinho × Bool × List String :=
  if c.itens = [] then (c, true, [])
  else
    let resultados := c.itens.map (validarItem db)
    let erros := resultados.filterMap Prod.snd
    ({ c with itens := resultados.map Prod.fst }, erros = [], erros)

/-- A payment entry as consumed by `validar_pagamentos_venda`
(`src/validacao_vendas.py`): the `forma_pagamento` and `valor` keys are
modelled as present (as the UI produces them); `numero_parcelas` is
optional. -/
structure Pagamento where
  forma_pagamento : String
  valor : Rat
  numero_parcelas : Option Int
deriving DecidableEq, Repr

/-- `validar_pagamento` of `src/validacao_vendas.py`: validate one
payment (method, positive amount, installment rules). -/
def validar_pagamento (forma : String) (valor : Rat)
    (parcelas : Option Int) : Bool × String :=
  if forma ≠ "dinheiro" ∧ forma ≠ "cartao_credito" ∧
      forma ≠ "cartao_debito" ∧ forma ≠ "pix" then
    (false, "Forma de pagamento inválida. Deve ser uma de: dinheiro, cartao_credito, cartao_debito, pix")
  else if valor ≤ 0 then
    (false, "Valor do pagamento deve ser maior que zero")
  else if forma = "cartao_credito" then
    match parcelas with
    | none =>
      (false, "Número de parcelas é obrigatório para pagamento com cartão de crédito")
    | some n =>
      if n < 1 ∨ n > 12 then
        (false, "Número de parcelas deve ser entre 1 e 12")
      else (true, "Pagamento válido")
  else
    match parcelas with
    | some _ =>
      (false, "Número de parcelas não é permitido para pagamento com " ++ forma)
    | none => (true, "Pagamento válido")

/-- The `for i, pagamento in enumerate(pagamentos)` loop of
`validar_pagamentos_venda`: the 0-based index and message of the first
individually invalid payment, if any. -/
def primeiroInvalido : Nat → List Pagamento → Option (Nat × String)
  | _, [] => none
  | i, p :: rest =>
    let r := validar_pagamento p.forma_pagamento p.valor p.numero_parcelas
    if r.1 then primeiroInvalido (i + 1) rest else some (i, r.2)

/-- Decimal rendering of a monetary value. The source renders floats with
two decimals; no theorem below depends on the digits of this rendering,
only on which message template is chosen. -/
def formatReais (q : Rat) : String := toString q

/-- `validar_pagamentos_venda`: at least one payment, each individually
valid, and the sum within 0.01 of the sale total. -/
def validar_pagamentos_venda (pagamentos : List Pagamento)
    (valor_total : Rat) : Bool × String :=
  if pagamentos = [] then
    (false, "Deve haver pelo menos uma forma de pagamento")
  else
    match primeiroInvalido 0 pagamentos with
    | some (i, msg) => (false, "Pagamento " ++ toString (i + 1) ++ ": " ++ msg)
    | none =>
      let soma := (pagamentos.map Pagamento.valor).sum
      let diferenca := |soma - valor_total|
      if diferenca > 1 / 100 then
        (false, "Soma dos pagamentos (R$ " ++ formatReais soma ++
          ") não corresponde ao total da venda (R$ " ++ formatReais valor_total ++ ")")
      else (true, "Pagamentos válidos")

/-- The collaborators used by `finalizar_venda` (`src/database.py`
functions), modelled as oracles: the sale id returned by
`inserir_venda`, the outcomes of `inserir_itens_venda` and
`inserir_pagamentos`, and the per-product outcome of
`registrar_movimentacao`. -/
structure ColabFinalizar where
  produtos : Banco
  inserir_venda : Option Int
  inserir_itens : Bool
  inserir_pagamentos : Bool
  registrar_mov : Int → Bool

/-- The observable outcome of `finalizar_venda`: the cart after the
call, the returned triple, and the trace of the stock-decrement phase
(`baixas`: successful movement calls as (product id, quantity);
`tentativas`: product ids of all movement calls attempted). -/
structure ResultadoFinalizar where
  carrinho : Carrinho
  sucesso : Bool
  mensagem : String
  venda_id : Option Int
  baixas : List (Int × Int)
  tentativas : List Int
deriving DecidableEq, Repr

/-- The step-8 loop of `finalizar_venda`: one `registrar_movimentacao`
call per line, stopping at the first failure. Returns the first failing
item (if any), the successful calls and the attempted product ids. -/
def baixarEstoque (mov : Int → Bool) :
    List ItemCarrinho → Option ItemCarrinho × List (Int × Int) × List Int
  | [] => (none, [], [])
  | it :: rest =>
    if mov it.produto_id then
      let r := baixarEstoque mov rest
      (r.1, (it.produto_id, it.quantidade) :: r.2.1, it.produto_id :: r.2.2)
    else (some it, [], [it.produto_id])

/-- `finalizar_venda` of `src/vendas.py`: empty-cart guard, availability
check, payment validation, header/items/payments persistence, per-line
stock decrement, and cart clearing on full success. -/
def finalizar_venda (col : ColabFinalizar) (c : Carrinho)
    (pagamentos : List Pagamento) : ResultadoFinalizar :=
  if c.itens = [] then
    ⟨c, false, "Carrinho está vazio. Adicione produtos antes de finalizar a venda.",
     none, [], []⟩
  else
    let vd := validar_disponibilidade col.produtos c
    let c1 := vd.1
    if ¬ vd.2.1 then
      ⟨c1, false, "Estoque insuficiente:\n" ++ String.intercalate "\n" vd.2.2,
       none, [], []⟩
    else
      let valor_final := calcular_total c1
      let vp := validar_pagamentos_venda pagamentos valor_final
      if ¬ vp.1 then
        ⟨c1, false, "Erro na validação de pagamentos: " ++ vp.2, none, [], []⟩
      else
        match col.inserir_venda with
        | none =>
          ⟨c1, false, "Erro ao registrar venda no banco de dados. Tente novamente.",
           none, [], []⟩
        | some venda_id =>
          if ¬ col.inserir_itens then
            ⟨c1, false, "Erro ao registrar itens da venda. Venda ID " ++
              toString venda_id ++ " pode estar incompleta.", some venda_id, [], []⟩
          else if ¬ col.inserir_pagamentos then
            ⟨c1, false, "Erro ao registrar pagamentos da venda. Venda ID " ++
              toString venda_id ++ " pode estar incompleta.", some venda_id, [], []⟩
          else
            let baixa := baixarEstoque col.registrar_mov c1.itens
            match baixa.1 with
            | some item =>
              ⟨c1, false, "Erro ao dar baixa no estoque do produto " ++
                item.descricao ++ ". Venda ID " ++ toString venda_id ++
                " registrada mas estoque não atualizado.",
               some venda_id, baixa.2.1, baixa.2.2⟩
            | none =>
              ⟨limpar c1, true, "Venda finalizada com sucesso! ID da venda: " ++
                toString venda_id, some venda_id, baixa.2.1, baixa.2.2⟩

/-- A fetched sale line item as read by `cancelar_venda`:
`item.get('produto_id')` and `item.get('quantidade')` may be absent
(`none`); `produto_descricao` is the `descricao` of the item's joined
(truthy) `produto` dict when that key is present. -/
structure ItemVenda where
  produto_id : Option Int
  quantidade : Option Int
  produto_descricao : Option String
deriving DecidableEq, Repr

/-- A fetched sale as read by `cancelar_venda`: its status and line
items. -/
structure Venda where
  status : String
  itens : List ItemVenda
deriving DecidableEq, Repr

/-- The collaborators used by `cancelar_venda`: the
`buscar_venda_completa` result, the `marcar_venda_cancelada` outcome and
the per-product `registrar_movimentacao` outcome. -/
structure ColabCancelar where
  venda : Option Venda
  marcar : Bool
  registrar_mov : Int → Bool

/-- The observable outcome of `cancelar_venda`: the returned pair,
whether the sale was successfully marked cancelled, and the restock
calls attempted as (product id, quantity). -/
structure ResultadoCancelar where
  sucesso : Bool
  mensagem : String
  marcou : Bool
  estornos : List (Int × Int)
deriving DecidableEq, Repr

/-- The truthiness test `if not produto_id or not quantidade: continue`
of the restock loop: the (product id, quantity) pair of a line item when
both are present and nonzero (Python ints are falsy exactly at 0),
`none` when the item is skipped. -/
def dadosItem (it : ItemVenda) : Option (Int × Int) :=
  match it.produto_id, it.quantidade with
  | some pid, some q => if pid = 0 ∨ q = 0 then none else some (pid, q)
  | _, _ => none

/-- The description reported for a failed restock: the joined product's
description when available, else the `Produto ID <id>` fallback. -/
def descricaoItem (it : ItemVenda) (pid : Int) : String :=
  match it.produto_descricao with
  | some d => d
  | none => "Produto ID " ++ toString pid

/-- The step-5 restock loop of `cancelar_venda`: skip incomplete items,
attempt a restock call for every remaining item, and collect the
descriptions of the items whose call failed, without stopping. Returns
(failed descriptions, attempted calls). -/
def estornarItens (mov : Int → Bool) :
    List ItemVenda → List String × List (Int × Int)
  | [] => ([], [])
  | it :: rest =>
    match dadosItem it with
    | none => estornarItens mov rest
    | some (pid, q) =>
      let r := estornarItens mov rest
      if mov pid then (r.1, (pid, q) :: r.2)
      else (descricaoItem it pid :: r.1, (pid, q) :: r.2)

/-- `cancelar_venda` of `src/vendas.py`: fetch the sale, reject missing
or already-cancelled sales, mark it cancelled, restock every line item,
and report aggregated restock failures. -/
def cancelar_venda (col : ColabCancelar) (venda_id : Int) :
    ResultadoCancelar :=
  match col.venda with
  | none =>
    ⟨false, "Venda #" ++ toString venda_id ++ " não encontrada.", false, []⟩
  | some venda =>
    if venda.status = "cancelada" then
      ⟨false, "Venda #" ++ toString venda_id ++ " já está cancelada.", false, []⟩
    else if ¬ col.marcar then
      ⟨false, "Erro ao marcar venda #" ++ toString venda_id ++
        " como cancelada. Tente novamente.", false, []⟩
    else if venda.itens = [] then
      ⟨true, "Venda #" ++ toString venda_id ++
        " cancelada com sucesso (sem itens para estornar).", true, []⟩
    else
      let r := estornarItens col.registrar_mov venda.itens
      if r.1 = [] then
        ⟨true, "Venda #" ++ toString venda_id ++
          " cancelada com sucesso. Estoque restaurado para " ++
          toString venda.itens.length ++ " item(ns).", true, r.2⟩
      else
        ⟨false, "Venda #" ++ toString venda_id ++
          " foi marcada como cancelada, mas houve erro ao estornar o estoque dos seguintes produtos: " ++
          String.intercalate ", " r.1 ++ ". Verifique o estoque manualmente.",
         true, r.2⟩

/-- Two cart lines agree on every field except possibly the cached
`estoque_disponivel`. -/
def itemSalvoEstoque (a b : ItemCarrinho) : Bool :=
  decide (a.produto_id = b.produto_id) && decide (a.descricao = b.descricao) &&
    decide (a.quantidade = b.quantidade) &&
    decide (a.preco_unitario = b.preco_unitario)

/-- Two line lists agree positionally on every field except possibly the
cached `estoque_disponivel` of each line. -/
def itensSalvoEstoque : List ItemCarrinho → List ItemCarrinho → Bool
  | [], [] => true
  | a :: xs, b :: ys => itemSalvoEstoque a b && itensSalvoEstoque xs ys
  | _, _ => false

/-- Every line of the cart has quantity at least 1. -/
def quantidadesPositivas (c : Carrinho) : Bool :=
  c.itens.all (fun it => decide (1 ≤ it.quantidade))

/-- At most one of the two discount fields is nonzero. -/
def descontoExclusivo (c : Carrinho) : Bool :=
  decide (c.desconto_percentual = 0) || decide (c.desconto_valor = 0)

/-- A fetched sale line item is complete for the restock loop: both
`produto_id` and `quantidade` are present and truthy. -/
def bemFormado (it : ItemVenda) : Bool :=
  (dadosItem it).isSome

/-- The descriptions of exactly the line items whose restock call fails,
in order: the direct characterisation of the error list the restock loop
accumulates. -/
def falhasEstorno (mov : Int → Bool) (itens : List ItemVenda) : List String :=
  itens.filterMap (fun it =>
    match dadosItem it with
    | some (pid, _) => if mov pid then none else some (descricaoItem it pid)
    | none => none)

theorem itemSalvoEstoque_refl (a : ItemCarrinho) : itemSalvoEstoque a a = true := by
  simp [itemSalvoEstoque]

theorem itensSalvoEstoque_refl (xs : List ItemCarrinho) :
    itensSalvoEstoque xs xs = true := by
  induction xs with
  | nil => rfl
  | cons a xs ih => simp [itensSalvoEstoque, itemSalvoEstoque_refl, ih]

theorem validarItem_salvo (db : Banco) (it : ItemCarrinho) :
    itemSalvoEstoque (validarItem db it).1 it = true := by
  unfold validarItem
  cases db it.produto_id with
  | none => simp [itemSalvoEstoque]
  | some p =>
    dsimp only
    split_ifs <;> simp [itemSalvoEstoque]

theorem validarItem_none_eq (db : Banco) (it : ItemCarrinho)
    (h : (validarItem db it).2 = none) : (validarItem db it).1 = it := by
  revert h
  unfold validarItem
  cases db it.produto_id with
  | none => simp
  | some p =>
    dsimp only
    split_ifs <;> simp

theorem itensSalvoEstoque_map_validar (db : Banco) (xs : List ItemCarrinho) :
    itensSalvoEstoque (xs.map (fun it => (validarItem db it).1)) xs = true := by
  induction xs with
  | nil => rfl
  | cons a xs ih => simp [itensSalvoEstoque, validarItem_salvo, ih]

theorem validar_itens_map (db : Banco) (c : Carrinho) :
    (validar_disponibilidade db c).1.itens =
      c.itens.map (fun it => (validarItem db it).1) := by
  unfold validar_disponibilidade
  by_cases h : c.itens = []
  · simp [h]
  · simp [h, List.map_map, Function.comp]

theorem validar_descontos (db : Banco) (c : Carrinho) :
    (validar_disponibilidade db c).1.desconto_percentual = c.desconto_percentual ∧
      (validar_disponibilidade db c).1.desconto_valor = c.desconto_valor := by
  unfold validar_disponibilidade
  by_cases h : c.itens = [] <;> simp [h]

theorem mapValidar_eq_self (db : Banco) (xs : List ItemCarrinho)
    (h : ∀ it ∈ xs, (validarItem db it).2 = none) :
    xs.map (fun it => (validarItem db it).1) = xs := by
  induction xs with
  | nil => rfl
  | cons a xs ih =>
    simp only [List.map_cons]
    rw [validarItem_none_eq db a (h a (by simp)),
      ih (fun it hit => h it (by simp [hit]))]

theorem validar_true_eq (db : Banco) (c : Carrinho)
    (h : (validar_disponibilidade db c).2.1 = true) :
    (validar_disponibilidade db c).1 = c := by
  by_cases hne : c.itens = []
  · unfold validar_disponibilidade
    simp [hne]
  · have herr : ∀ it ∈ c.itens, (validarItem db it).2 = none := by
      unfold validar_disponibilidade at h
      simp only [if_neg hne] at h
      have h2 := of_decide_eq_true h
      intro it hit
      have := List.filterMap_eq_nil_iff.mp h2 (validarItem db it)
        (List.mem_map_of_mem _ hit)
      exact this
    unfold validar_disponibilidade
    simp only [if_neg hne]
    have hmap : (c.itens.map (validarItem db)).map Prod.fst = c.itens := by
      rw [List.map_map]
      have := mapValidar_eq_self db c.itens herr
      simpa [Function.comp] using this
    simp [hmap]

theorem baixarEstoque_primeira_falha (mov : Int → Bool)
    (pre : List ItemCarrinho) (bad : ItemCarrinho) (rest : List ItemCarrinho)
    (hpre : ∀ it ∈ pre, mov it.produto_id = true)
    (hbad : mov bad.produto_id = false) :
    baixarEstoque mov (pre ++ bad :: rest) =
      (some bad, pre.map (fun it => (it.produto_id, it.quantidade)),
        pre.map (fun it => it.produto_id) ++ [bad.produto_id]) := by
  induction pre with
  | nil => simp [baixarEstoque, hbad]
  | cons a pre ih =>
    have ha : mov a.produto_id = true := hpre a (by simp)
    have ih2 := ih (fun it hit => hpre it (by simp [hit]))
    simp [baixarEstoque, ha, ih2]

theorem baixarEstoque_todos_ok (mov : Int → Bool) (xs : List ItemCarrinho)
    (h : ∀ it ∈ xs, mov it.produto_id = true) :
    baixarEstoque mov xs =
      (none, xs.map (fun it => (it.produto_id, it.quantidade)),
        xs.map (fun it => it.produto_id)) := by
  induction xs with
  | nil => simp [baixarEstoque]
  | cons a xs ih =>
    have ha : mov a.produto_id = true := h a (by simp)
    have ih2 := ih (fun it hit => h it (by simp [hit]))
    simp [baixarEstoque, ha, ih2]

theorem estornarItens_spec (mov : Int → Bool) (itens : List ItemVenda) :
    estornarItens mov itens =
      (falhasEstorno mov itens, itens.filterMap dadosItem) := by
  induction itens with
  | nil => rfl
  | cons it rest ih =>
    unfold estornarItens
    unfold falhasEstorno at ih ⊢
    cases hd : dadosItem it with
    | none => simp [List.filterMap_cons, hd, ih]
    | some pq =>
      obtain ⟨pid, q⟩ := pq
      by_cases hm : mov pid <;> simp [List.filterMap_cons, hd, hm, ih]

theorem estornarItens_pulados (mov : Int → Bool) (itens : List ItemVenda)
    (h : ∀ it ∈ itens, dadosItem it = none) :
    estornarItens mov itens = ([], []) := by
  induction itens with
  | nil => rfl
  | cons it rest ih =>
    unfold estornarItens
    rw [h it (by simp)]
    exact ih (fun x hx => h x (by simp [hx]))

theorem filterMap_isSome_length {α β : Type} (f : α → Option β) (xs : List α)
    (h : ∀ x ∈ xs, (f x).isSome = true) :
    (xs.filterMap f).length = xs.length := by
  induction xs with
  | nil => rfl
  | cons a xs ih =>
    have ha := h a (by simp)
    cases hf : f a with
    | none => rw [hf] at ha; simp at ha
    | some b =>
      simp [List.filterMap_cons, hf, ih (fun x hx => h x (by simp [hx]))]

theorem primeiroInvalido_none (pags : List Pagamento)
    (h : ∀ p ∈ pags,
      (validar_pagamento p.forma_pagamento p.valor p.numero_parcelas).1 = true) :
    ∀ i, primeiroInvalido i pags = none := by
  induction pags with
  | nil => intro i; rfl
  | cons p rest ih =>
    intro i
    unfold primeiroInvalido
    rw [if_pos (h p (by simp))]
    exact ih (fun x hx => h x (by simp [hx])) (i + 1)

theorem quantidadesPositivas_atualizarPrimeiro (pid nova : Int)
    (xs : List ItemCarrinho) (hnova : 1 ≤ nova)
    (h : xs.all (fun it => decide (1 ≤ it.quantidade)) = true) :
    (atualizarPrimeiro pid (fun it => { it with quantidade := nova }) xs).all
      (fun it => decide (1 ≤ it.quantidade)) = true := by
  induction xs with
  | nil => rfl
  | cons a xs ih =>
    simp only [List.all_cons, Bool.and_eq_true] at h
    unfold atualizarPrimeiro
    by_cases hid : a.produto_id == pid
    · simp [hid, hnova, h.2]
    · simp [hid, h.1, ih h.2]

theorem quantidadesPositivas_removerPrimeiro (pid : Int)
    (xs ys : List ItemCarrinho)
    (hrem : removerPrimeiro pid xs = some ys)
    (h : xs.all (fun it => decide (1 ≤ it.quantidade)) = true) :
    ys.all (fun it => decide (1 ≤ it.quantidade)) = true := by
  induction xs generalizing ys with
  | nil => simp [removerPrimeiro] at hrem
  | cons a xs ih =>
    simp only [List.all_cons, Bool.and_eq_true] at h
    unfold removerPrimeiro at hrem
    by_cases hid : a.produto_id == pid
    · rw [if_pos hid] at hrem
      cases hrem
      exact h.2
    · rw [if_neg hid] at hrem
      cases hz : removerPrimeiro pid xs with
      | none => rw [hz] at hrem; simp at hrem
      | some zs =>
        rw [hz] at hrem
        simp at hrem
        rw [← hrem]
        simp [h.1, ih zs hz h.2]

/-- Claim C2 is false as stated: a cart reachable by one
`adicionar_produto` call with a negative quantity argument is non-empty,
has both discount fields zero, and has a negative subtotal, so the
floored `calcular_total` (0) differs from `calcular_subtotal` (−30). -/
theorem C2_contraexemplo :
    (adicionar_produto (fun pid => if pid = 1 then some ⟨10, 5, "p"⟩ else none)
      carrinhoVazio 1 (-3)).2 = true ∧
    (adicionar_produto (fun pid => if pid = 1 then some ⟨10, 5, "p"⟩ else none)
      carrinhoVazio 1 (-3)).1 = ⟨[⟨1, "p", -3, 10, 5⟩], 0, 0⟩ ∧
    (⟨[⟨1, "p", -3, 10, 5⟩], 0, 0⟩ : Carrinho).itens ≠ [] ∧
    calcular_total ⟨[⟨1, "p", -3, 10, 5⟩], 0, 0⟩ = 0 ∧
    calcular_subtotal ⟨[⟨1, "p", -3, 10, 5⟩], 0, 0⟩ = -30 := by
  have hsub : calcular_subtotal ⟨[⟨1, "p", -3, 10, 5⟩], 0, 0⟩ = -30 := by
    simp [calcular_subtotal, ItemCarrinho.calcular_subtotal]
    norm_num
  refine ⟨by decide, by decide, by decide, ?_, hsub⟩
  unfold calcular_total calcular_desconto
  rw [hsub]
  norm_num

/-- Claim C2 (amended): for every cart, `calcular_total` is the subtotal
minus the discount floored at 0, and `calcular_desconto` follows the
fixed-over-percent priority rule; and every non-empty cart with both
discount fields zero and a nonnegative subtotal has total equal to
subtotal (the nonnegativity hypothesis is forced: a line with negative
quantity or price makes the floored total differ). -/
theorem C2_total_desconto (c : Carrinho) :
    calcular_total c = max 0 (calcular_subtotal c - calcular_desconto c) ∧
    calcular_desconto c =
      (if c.desconto_valor > 0 then c.desconto_valor
       else if c.desconto_percentual > 0 then
         calcular_subtotal c * c.desconto_percentual / 100
       else 0) ∧
    (c.itens ≠ [] → c.desconto_percentual = 0 → c.desconto_valor = 0 →
      0 ≤ calcular_subtotal c → calcular_total c = calcular_subtotal c) := by
  refine ⟨rfl, rfl, ?_⟩
  intro _ hp hv hs
  unfold calcular_total calcular_desconto
  rw [hp, hv]
  simp only [lt_irrefl, if_false, sub_zero]
  exact max_eq_right hs

/-- Witness for C2 at a concrete one-line cart with no discount. -/
theorem C2_total_desconto_witness :
    calcular_total ⟨[⟨1, "x", 2, 3, 5⟩], 0, 0⟩ =
      calcular_subtotal ⟨[⟨1, "x", 2, 3, 5⟩], 0, 0⟩ :=
  (C2_total_desconto ⟨[⟨1, "x", 2, 3, 5⟩], 0, 0⟩).2.2
    (by decide) rfl rfl
    (by simp [calcular_subtotal, ItemCarrinho.calcular_subtotal])

/-- Claim C8: `aplicar_desconto_valor` fails and returns the cart
unchanged for any v < 0 or v > subtotal, and succeeds for any v in
[0, subtotal]. -/
theorem C8_desconto_valor (c : Carrinho) (v : Rat) :
    ((v < 0 ∨ calcular_subtotal c < v) → aplicar_desconto_valor c v = (c, false)) ∧
    ((0 ≤ v ∧ v ≤ calcular_subtotal c) → (aplicar_desconto_valor c v).2 = true) := by
  constructor
  · intro h
    unfold aplicar_desconto_valor
    by_cases hv : v < 0
    · rw [if_pos hv]
    · have hgt : calcular_subtotal c < v := h.resolve_left hv
      rw [if_neg hv]
      dsimp only
      rw [if_pos hgt]
  · intro ⟨h0, hs⟩
    unfold aplicar_desconto_valor
    rw [if_neg (not_lt.mpr h0)]
    dsimp only
    rw [if_neg (not_lt.mpr hs), if_neg (not_lt.mpr (sub_nonneg.mpr hs))]

/-- Witness for C8: with subtotal 6, the value 7 is rejected without
mutation and the value 4 is accepted. -/
theorem C8_desconto_valor_witness :
    aplicar_desconto_valor ⟨[⟨1, "x", 2, 3, 5⟩], 0, 0⟩ 7 =
      (⟨[⟨1, "x", 2, 3, 5⟩], 0, 0⟩, false) ∧
    (aplicar_desconto_valor ⟨[⟨1, "x", 2, 3, 5⟩], 0, 0⟩ 4).2 = true :=
  ⟨(C8_desconto_valor ⟨[⟨1, "x", 2, 3, 5⟩], 0, 0⟩ 7).1
    (Or.inr (by simp [calcular_subtotal, ItemCarrinho.calcular_subtotal]; norm_num)),
   (C8_desconto_valor ⟨[⟨1, "x", 2, 3, 5⟩], 0, 0⟩ 4).2
    ⟨by norm_num,
     by simp [calcular_subtotal, ItemCarrinho.calcular_subtotal]; norm_num⟩⟩

theorem adicionar_descontos (db : Banco) (c : Carrinho) (pid q : Int) :
    (adicionar_produto db c pid q).1.desconto_percentual = c.desconto_percentual ∧
      (adicionar_produto db c pid q).1.desconto_valor = c.desconto_valor := by
  unfold adicionar_produto
  cases db pid with
  | none => exact ⟨rfl, rfl⟩
  | some p =>
    dsimp only
    cases c.itens.find? (fun it => it.produto_id == pid) with
    | some item =>
      dsimp only
      split_ifs <;> exact ⟨rfl, rfl⟩
    | none =>
      dsimp only
      split_ifs <;> exact ⟨rfl, rfl⟩

theorem remover_descontos (c : Carrinho) (pid : Int) :
    (remover_produto c pid).1.desconto_percentual = c.desconto_percentual ∧
      (remover_produto c pid).1.desconto_valor = c.desconto_valor := by
  unfold remover_produto
  cases removerPrimeiro pid c.itens <;> exact ⟨rfl, rfl⟩

theorem atualizar_descontos (c : Carrinho) (pid q : Int) :
    (atualizar_quantidade c pid q).1.desconto_percentual = c.desconto_percentual ∧
      (atualizar_quantidade c pid q).1.desconto_valor = c.desconto_valor := by
  unfold atualizar_quantidade
  cases c.itens.find? (fun it => it.produto_id == pid) with
  | none => exact ⟨rfl, rfl⟩
  | some item =>
    dsimp only
    split_ifs <;> exact ⟨rfl, rfl⟩

theorem aplicar_percentual_itens (c : Carrinho) (p : Rat) :
    (aplicar_desconto_percentual c p).1.itens = c.itens := by
  unfold aplicar_desconto_percentual
  dsimp only
  split_ifs <;> rfl

theorem aplicar_valor_itens (c : Carrinho) (v : Rat) :
    (aplicar_desconto_valor c v).1.itens = c.itens := by
  unfold aplicar_desconto_valor
  dsimp only
  split_ifs <;> rfl

/-- Claim C5: a fresh cart satisfies discount mutual exclusivity, every
cart operation preserves it, and a successful discount application sets
its own field and zeroes the other. -/
theorem C5_exclusividade (db : Banco) (c : Carrinho) (pid q : Int) (p v : Rat) :
    descontoExclusivo carrinhoVazio = true ∧
    (descontoExclusivo c = true →
      descontoExclusivo (adicionar_produto db c pid q).1 = true) ∧
    (descontoExclusivo c = true →
      descontoExclusivo (remover_produto c pid).1 = true) ∧
    (descontoExclusivo c = true →
      descontoExclusivo (atualizar_quantidade c pid q).1 = true) ∧
    (descontoExclusivo c = true →
      descontoExclusivo (validar_disponibilidade db c).1 = true) ∧
    (descontoExclusivo c = true →
      descontoExclusivo (aplicar_desconto_percentual c p).1 = true) ∧
    (descontoExclusivo c = true →
      descontoExclusivo (aplicar_desconto_valor c v).1 = true) ∧
    descontoExclusivo (remover_desconto c) = true ∧
    descontoExclusivo (limpar c) = true ∧
    ((aplicar_desconto_percentual c p).2 = true →
      (aplicar_desconto_percentual c p).1.desconto_percentual = p ∧
        (aplicar_desconto_percentual c p).1.desconto_valor = 0) ∧
    ((aplicar_desconto_valor c v).2 = true →
      (aplicar_desconto_valor c v).1.desconto_valor = v ∧
        (aplicar_desconto_valor c v).1.desconto_percentual = 0) := by
  refine ⟨by decide, ?_, ?_, ?_, ?_, ?_, ?_, by simp [descontoExclusivo, remover_desconto],
    by simp [descontoExclusivo, limpar, carrinhoVazio], ?_, ?_⟩
  · intro h
    unfold descontoExclusivo at h ⊢
    rw [(adicionar_descontos db c pid q).1, (adicionar_descontos db c pid q).2]
    exact h
  · intro h
    unfold descontoExclusivo at h ⊢
    rw [(remover_descontos c pid).1, (remover_descontos c pid).2]
    exact h
  · intro h
    unfold descontoExclusivo at h ⊢
    rw [(atualizar_descontos c pid q).1, (atualizar_descontos c pid q).2]
    exact h
  · intro h
    unfold descontoExclusivo at h ⊢
    rw [(validar_descontos db c).1, (validar_descontos db c).2]
    exact h
  · intro h
    unfold aplicar_desconto_percentual
    dsimp only
    split_ifs
    · exact h
    · exact h
    · simp [descontoExclusivo]
  · intro h
    unfold aplicar_desconto_valor
    dsimp only
    split_ifs
    · exact h
    · exact h
    · exact h
    · simp [descontoExclusivo]
  · unfold aplicar_desconto_percentual
    dsimp only
    split_ifs <;> intro h
    · exact absurd h (by simp)
    · exact absurd h (by simp)
    · exact ⟨rfl, rfl⟩
  · unfold aplicar_desconto_valor
    dsimp only
    split_ifs <;> intro h
    · exact absurd h (by simp)
    · exact absurd h (by simp)
    · exact absurd h (by simp)
    · exact ⟨rfl, rfl⟩

/-- Witness for C5: applying a 10% discount to a cart carrying a fixed
discount of 5 succeeds, sets the percent field and zeroes the fixed
field; the resulting state is exclusive. -/
theorem C5_exclusividade_witness :
    descontoExclusivo (⟨[], 0, 5⟩ : Carrinho) = true ∧
    descontoExclusivo (aplicar_desconto_percentual ⟨[], 0, 5⟩ 10).1 = true ∧
    (aplicar_desconto_percentual ⟨[], 0, 5⟩ 10).1.desconto_percentual = 10 ∧
    (aplicar_desconto_percentual ⟨[], 0, 5⟩ 10).1.desconto_valor = 0 := by
  have h := C5_exclusividade (fun _ => none) ⟨[], 0, 5⟩ 0 0 10 0
  have hsucc : (aplicar_desconto_percentual (⟨[], 0, 5⟩ : Carrinho) 10).2 = true := by
    unfold aplicar_desconto_percentual
    norm_num [calcular_subtotal]
  exact ⟨by decide, h.2.2.2.2.2.1 (by decide),
    (h.2.2.2.2.2.2.2.2.2.1 hsucc).1, (h.2.2.2.2.2.2.2.2.2.1 hsucc).2⟩

theorem validarItem_quantidade (db : Banco) (it : ItemCarrinho) :
    (validarItem db it).1.quantidade = it.quantidade := by
  unfold validarItem
  cases db it.produto_id with
  | none => rfl
  | some p =>
    dsimp only
    split_ifs <;> rfl

/-- Claim C7 is false as stated: `adicionar_produto` with quantity
argument 0 succeeds against a product with nonnegative stock and creates
a line whose quantity is 0. -/
theorem C7_contraexemplo :
    (adicionar_produto (fun pid => if pid = 1 then some ⟨10, 5, "p"⟩ else none)
      carrinhoVazio 1 0).2 = true ∧
    quantidadesPositivas
      (adicionar_produto (fun pid => if pid = 1 then some ⟨10, 5, "p"⟩ else none)
        carrinhoVazio 1 0).1 = false := by
  decide

/-- Claim C7 (amended): every line of a fresh cart has quantity ≥ 1 and
the invariant is preserved by every cart operation, provided every
`adicionar_produto` call passes a quantity argument ≥ 1 (the code does
not validate the argument itself, so a call with quantity ≤ 0 can break
the invariant; `atualizar_quantidade` does validate). -/
theorem C7_invariante (db : Banco) (c : Carrinho) (pid q : Int) (p v : Rat) :
    quantidadesPositivas carrinhoVazio = true ∧
    (quantidadesPositivas c = true → 1 ≤ q →
      quantidadesPositivas (adicionar_produto db c pid q).1 = true) ∧
    (quantidadesPositivas c = true →
      quantidadesPositivas (remover_produto c pid).1 = true) ∧
    (quantidadesPositivas c = true →
      quantidadesPositivas (atualizar_quantidade c pid q).1 = true) ∧
    quantidadesPositivas (limpar c) = true ∧
    (quantidadesPositivas c = true →
      quantidadesPositivas (validar_disponibilidade db c).1 = true) ∧
    (quantidadesPositivas c = true →
      quantidadesPositivas (aplicar_desconto_percentual c p).1 = true) ∧
    (quantidadesPositivas c = true →
      quantidadesPositivas (aplicar_desconto_valor c v).1 = true) ∧
    (quantidadesPositivas c = true →
      quantidadesPositivas (remover_desconto c) = true) := by
  refine ⟨by decide, ?_, ?_, ?_,
    by simp [quantidadesPositivas, limpar, carrinhoVazio], ?_, ?_, ?_, ?_⟩
  · intro h hq
    unfold adicionar_produto
    cases db pid with
    | none => exact h
    | some produto =>
      dsimp only
      cases hfind : c.itens.find? (fun it => it.produto_id == pid) with
      | some item =>
        dsimp only
        split_ifs with hgt
        · exact h
        · have hmem := List.mem_of_find?_eq_some hfind
          have hitem : 1 ≤ item.quantidade :=
            of_decide_eq_true (List.all_eq_true.mp h item hmem)
          exact quantidadesPositivas_atualizarPrimeiro pid
            (item.quantidade + q) c.itens (by omega) h
      | none =>
        dsimp only
        split_ifs with hgt
        · exact h
        · unfold quantidadesPositivas at h ⊢
          simp only [List.all_append, Bool.and_eq_true, List.all_cons,
            List.all_nil, Bool.and_true]
          exact ⟨h, by simpa using hq⟩
  · intro h
    unfold remover_produto
    cases hrem : removerPrimeiro pid c.itens with
    | none => exact h
    | some ys =>
      exact quantidadesPositivas_removerPrimeiro pid c.itens ys hrem h
  · intro h
    unfold atualizar_quantidade
    cases hfind : c.itens.find? (fun it => it.produto_id == pid) with
    | none => exact h
    | some item =>
      dsimp only
      split_ifs with h1 h2
      · exact h
      · exact h
      · exact quantidadesPositivas_atualizarPrimeiro pid q c.itens
          (by omega) h
  · intro h
    unfold quantidadesPositivas at h ⊢
    rw [validar_itens_map]
    rw [List.all_eq_true] at h ⊢
    intro it hit
    obtain ⟨it0, hit0, rfl⟩ := List.mem_map.mp hit
    rw [validarItem_quantidade]
    exact h it0 hit0
  · intro h
    unfold quantidadesPositivas at h ⊢
    rw [aplicar_percentual_itens]
    exact h
  · intro h
    unfold quantidadesPositivas at h ⊢
    rw [aplicar_valor_itens]
    exact h
  · intro h
    exact h

/-- Witness for C7: adding two units of an in-stock product to a fresh
cart keeps all quantities ≥ 1. -/
theorem C7_invariante_witness :
    quantidadesPositivas
      (adicionar_produto (fun pid => if pid = 1 then some ⟨10, 5, "p"⟩ else none)
        carrinhoVazio 1 2).1 = true :=
  (C7_invariante (fun pid => if pid = 1 then some ⟨10, 5, "p"⟩ else none)
    carrinhoVazio 1 2 0 0).2.1 (by decide) (by decide)

theorem validar_pagamento_dinheiro_5999 :
    validar_pagamento "dinheiro" (5999 / 100) none = (true, "Pagamento válido") := by
  unfold validar_pagamento
  rw [if_neg (by simp), if_neg (by norm_num), if_neg (by simp)]

/-- Claim C3 is false as stated: the single cash payment of 59.99 is
individually valid, and against an expected total of 60.00 the set
validation succeeds (the absolute difference is exactly the 0.01
tolerance, and the code rejects only strictly larger differences), while
the claim says it fails. -/
theorem C3_contraexemplo :
    (validar_pagamento "dinheiro" (5999 / 100) none).1 = true ∧
    (validar_pagamentos_venda [⟨"dinheiro", 5999 / 100, none⟩] 60).1 = true := by
  refine ⟨by rw [validar_pagamento_dinheiro_5999], ?_⟩
  unfold validar_pagamentos_venda
  rw [if_neg (by simp)]
  have hinv : primeiroInvalido 0 [⟨"dinheiro", 5999 / 100, none⟩] = none := by
    unfold primeiroInvalido
    simp [validar_pagamento_dinheiro_5999]
    rfl
  rw [hinv]
  dsimp only
  rw [if_neg ?_]
  have habs : |([(⟨"dinheiro", 5999 / 100, none⟩ : Pagamento)].map
      Pagamento.valor).sum - (60 : Rat)| = 1 / 100 := by
    simp only [List.map_cons, List.map_nil, List.sum_cons, List.sum_nil]
    rw [show (5999 / 100 : Rat) + 0 - 60 = -(1 / 100) by norm_num, abs_neg,
      abs_of_nonneg (by norm_num)]
  rw [habs]
  exact lt_irrefl _

/-- Claim C3 (amended): for every list of individually valid payments
with at least one entry and every expected total, validation succeeds
iff |sum − total| ≤ 0.01; in particular [{cash, 59.99}] succeeds against
total 60.00 (the difference equals the tolerance exactly) as well as
against total 59.995. -/
theorem C3_tolerancia (pagamentos : List Pagamento) (total : Rat)
    (hne : pagamentos ≠ [])
    (hval : ∀ p ∈ pagamentos,
      (validar_pagamento p.forma_pagamento p.valor p.numero_parcelas).1 = true) :
    ((validar_pagamentos_venda pagamentos total).1 = true ↔
      |(pagamentos.map Pagamento.valor).sum - total| ≤ 1 / 100) := by
  unfold validar_pagamentos_venda
  rw [if_neg hne, primeiroInvalido_none pagamentos hval 0]
  dsimp only
  by_cases hd : |(pagamentos.map Pagamento.valor).sum - total| ≤ 1 / 100
  · rw [if_neg (not_lt.mpr hd)]
    exact iff_of_true rfl hd
  · rw [if_pos (not_le.mp hd)]
    exact iff_of_false (by simp) hd

/-- Witness for C3 at a single exact pix payment. -/
theorem C3_tolerancia_witness :
    (validar_pagamentos_venda [⟨"pix", 10, none⟩] 10).1 = true ↔
      |(([(⟨"pix", 10, none⟩ : Pagamento)].map Pagamento.valor).sum - (10 : Rat))| ≤ 1 / 100 :=
  C3_tolerancia [⟨"pix", 10, none⟩] 10 (by simp)
    (by
      intro p hp
      simp only [List.mem_singleton] at hp
      subst hp
      unfold validar_pagamento
      rw [if_neg (by simp), if_neg (by norm_num), if_neg (by simp)])

/-- Claim C6 is false as stated: for a cart line requesting quantity 1
with cached stock 5, while the store now holds 10 units, the
availability check leaves the cached available_stock at 5 instead of
updating it to the freshly fetched 10. -/
theorem C6_contraexemplo :
    ((validar_disponibilidade
        (fun pid => if pid = 1 then some ⟨10, 10, "p"⟩ else none)
        ⟨[⟨1, "p", 1, 10, 5⟩], 0, 0⟩).1.itens.map
      ItemCarrinho.estoque_disponivel) = [5] ∧
    ((fun pid => if pid = 1 then some (⟨10, 10, "p"⟩ : Produto) else none) 1).map
      Produto.quantidade = some 10 := by
  decide

/-- Claim C6 (amended): the availability check never changes a line's
product id, description, quantity or unit price; its only mutation is to
the cached available_stock, which is set to the freshly fetched stock
exactly for the lines that fail the check (requested quantity above the
fetched stock, or fetched stock zero) and left at its previous cached
value for every other line. -/
theorem C6_frame (db : Banco) (c : Carrinho) :
    (validar_disponibilidade db c).1.desconto_percentual = c.desconto_percentual ∧
    (validar_disponibilidade db c).1.desconto_valor = c.desconto_valor ∧
    (validar_disponibilidade db c).1.itens =
      c.itens.map (fun it => (validarItem db it).1) ∧
    ∀ it : ItemCarrinho,
      (validarItem db it).1.produto_id = it.produto_id ∧
      (validarItem db it).1.descricao = it.descricao ∧
      (validarItem db it).1.quantidade = it.quantidade ∧
      (validarItem db it).1.preco_unitario = it.preco_unitario ∧
      (validarItem db it).1.estoque_disponivel =
        (match db it.produto_id with
         | none => it.estoque_disponivel
         | some produto =>
           if produto.quantidade < it.quantidade ∨ produto.quantidade = 0 then
             produto.quantidade
           else it.estoque_disponivel) := by
  refine ⟨(validar_descontos db c).1, (validar_descontos db c).2,
    validar_itens_map db c, ?_⟩
  intro it
  unfold validarItem
  cases db it.produto_id with
  | none => exact ⟨rfl, rfl, rfl, rfl, rfl⟩
  | some produto =>
    dsimp only
    by_cases h1 : it.quantidade > produto.quantidade
    · rw [if_pos h1]
      refine ⟨rfl, rfl, rfl, rfl, ?_⟩
      rw [if_pos (Or.inl h1)]
    · rw [if_neg h1]
      by_cases h2 : produto.quantidade = 0
      · rw [if_pos h2]
        refine ⟨rfl, rfl, rfl, rfl, ?_⟩
        rw [if_pos (Or.inr h2), h2]
      · rw [if_neg h2]
        refine ⟨rfl, rfl, rfl, rfl, ?_⟩
        rw [if_neg (by push_neg; exact ⟨not_lt.mp h1, h2⟩)]

/-- Claim C1: when every step of `finalizar_venda` up to the
stock-decrement phase succeeds and the loop meets its first failing
line, the function makes one movement call per preceding line plus the
failing call and stops, returns failure with a message naming both the
sale id and the unadjusted product, keeps the sale id, leaves the
decrements already applied in place (no rollback), and does not clear
the cart. -/
theorem C1_baixa_falha (col : ColabFinalizar) (c : Carrinho)
    (pagamentos : List Pagamento) (venda_id : Int)
    (pre : List ItemCarrinho) (bad : ItemCarrinho) (rest : List ItemCarrinho)
    (hsplit : c.itens = pre ++ bad :: rest)
    (hdisp : (validar_disponibilidade col.produtos c).2.1 = true)
    (hpag : (validar_pagamentos_venda pagamentos (calcular_total c)).1 = true)
    (hins : col.inserir_venda = some venda_id)
    (hit : col.inserir_itens = true)
    (hpg : col.inserir_pagamentos = true)
    (hpre : ∀ it ∈ pre, col.registrar_mov it.produto_id = true)
    (hbad : col.registrar_mov bad.produto_id = false) :
    finalizar_venda col c pagamentos =
      ⟨c, false,
       "Erro ao dar baixa no estoque do produto " ++ bad.descricao ++
         ". Venda ID " ++ toString venda_id ++
         " registrada mas estoque não atualizado.",
       some venda_id,
       pre.map (fun it => (it.produto_id, it.quantidade)),
       pre.map (fun it => it.produto_id) ++ [bad.produto_id]⟩ := by
  have hne : c.itens ≠ [] := by
    rw [hsplit]
    exact List.append_ne_nil_of_right_ne_nil _ (by simp)
  have hc1 : (validar_disponibilidade col.produtos c).1 = c :=
    validar_true_eq _ _ hdisp
  unfold finalizar_venda
  rw [if_neg hne]
  dsimp only
  rw [hc1, if_neg (by rw [hdisp]; simp), if_neg (by rw [hpag]; simp), hins]
  dsimp only
  rw [if_neg (by rw [hit]; simp), if_neg (by rw [hpg]; simp), hsplit,
    baixarEstoque_primeira_falha col.registrar_mov pre bad rest hpre hbad]

/-- Witness for C1: a two-line cart where the decrement of the second
product fails after the first was applied. -/
theorem C1_baixa_falha_witness :
    finalizar_venda
      ⟨fun pid => if pid = 1 then some ⟨10, 5, "A"⟩
        else if pid = 2 then some ⟨20, 5, "B"⟩ else none,
       some 7, true, true, fun pid => pid == 1⟩
      ⟨[⟨1, "A", 2, 10, 5⟩, ⟨2, "B", 1, 20, 5⟩], 0, 0⟩
      [⟨"dinheiro", 40, none⟩] =
      ⟨⟨[⟨1, "A", 2, 10, 5⟩, ⟨2, "B", 1, 20, 5⟩], 0, 0⟩, false,
       "Erro ao dar baixa no estoque do produto " ++ "B" ++
         ". Venda ID " ++ toString (7 : Int) ++
         " registrada mas estoque não atualizado.",
       some 7,
       [(⟨1, "A", 2, 10, 5⟩ : ItemCarrinho)].map
         (fun it => (it.produto_id, it.quantidade)),
       [(⟨1, "A", 2, 10, 5⟩ : ItemCarrinho)].map (fun it => it.produto_id) ++
         [(⟨2, "B", 1, 20, 5⟩ : ItemCarrinho).produto_id]⟩ :=
  C1_baixa_falha
    ⟨fun pid => if pid = 1 then some ⟨10, 5, "A"⟩
      else if pid = 2 then some ⟨20, 5, "B"⟩ else none,
     some 7, true, true, fun pid => pid == 1⟩
    ⟨[⟨1, "A", 2, 10, 5⟩, ⟨2, "B", 1, 20, 5⟩], 0, 0⟩
    [⟨"dinheiro", 40, none⟩] 7
    [⟨1, "A", 2, 10, 5⟩] ⟨2, "B", 1, 20, 5⟩ []
    rfl (by decide)
    (by
      have hsub : calcular_subtotal ⟨[⟨1, "A", 2, 10, 5⟩, ⟨2, "B", 1, 20, 5⟩], 0, 0⟩ = 40 := by
        simp [calcular_subtotal, ItemCarrinho.calcular_subtotal]
        norm_num
      have hdes : calcular_desconto ⟨[⟨1, "A", 2, 10, 5⟩, ⟨2, "B", 1, 20, 5⟩], 0, 0⟩ = 0 := by
        simp [calcular_desconto]
      have htot : calcular_total ⟨[⟨1, "A", 2, 10, 5⟩, ⟨2, "B", 1, 20, 5⟩], 0, 0⟩ = 40 := by
        unfold calcular_total
        rw [hsub, hdes]
        norm_num
      rw [htot]
      have hv40 : validar_pagamento "dinheiro" 40 none = (true, "Pagamento válido") := by
        unfold validar_pagamento
        rw [if_neg (by simp), if_neg (by norm_num), if_neg (by simp)]
      have hinv : primeiroInvalido 0 [⟨"dinheiro", 40, none⟩] = none := by
        unfold primeiroInvalido
        dsimp only
        rw [hv40]
        rfl
      unfold validar_pagamentos_venda
      rw [if_neg (by simp), hinv]
      dsimp only
      rw [if_neg ?_]
      simp only [List.map_cons, List.map_nil, List.sum_cons, List.sum_nil,
        add_zero, sub_self, abs_zero]
      norm_num)
    rfl rfl rfl (by decide) (by decide)

theorem carrinho_pos_validar (db : Banco) (c : Carrinho) :
    (validar_disponibilidade db c).1.desconto_percentual = c.desconto_percentual ∧
      (validar_disponibilidade db c).1.desconto_valor = c.desconto_valor ∧
      itensSalvoEstoque (validar_disponibilidade db c).1.itens c.itens = true :=
  ⟨(validar_descontos db c).1, (validar_descontos db c).2, by
    rw [validar_itens_map]
    exact itensSalvoEstoque_map_validar db c.itens⟩

/-- Claim C9: `finalizar_venda` clears the cart exactly when it succeeds;
on every failing path of the model the discount fields and the lines
(product id, description, quantity, unit price) are left as they were,
with only the cached available_stock possibly refreshed by the
availability check. -/
theorem C9_limpeza (col : ColabFinalizar) (c : Carrinho)
    (pagamentos : List Pagamento) :
    ((finalizar_venda col c pagamentos).sucesso = true →
      (finalizar_venda col c pagamentos).carrinho = carrinhoVazio) ∧
    ((finalizar_venda col c pagamentos).sucesso = false →
      (finalizar_venda col c pagamentos).carrinho.desconto_percentual =
          c.desconto_percentual ∧
        (finalizar_venda col c pagamentos).carrinho.desconto_valor =
          c.desconto_valor ∧
        itensSalvoEstoque (finalizar_venda col c pagamentos).carrinho.itens
          c.itens = true) := by
  unfold finalizar_venda
  by_cases hne : c.itens = []
  · rw [if_pos hne]
    exact ⟨by simp, fun _ => ⟨rfl, rfl, itensSalvoEstoque_refl _⟩⟩
  · rw [if_neg hne]
    dsimp only
    by_cases hdisp : (validar_disponibilidade col.produtos c).2.1 = true
    · rw [if_neg (by rw [hdisp]; simp)]
      by_cases hpag : (validar_pagamentos_venda pagamentos
          (calcular_total (validar_disponibilidade col.produtos c).1)).1 = true
      · rw [if_neg (by rw [hpag]; simp)]
        cases hins : col.inserir_venda with
        | none =>
          exact ⟨by simp, fun _ => carrinho_pos_validar col.produtos c⟩
        | some venda_id =>
          dsimp only
          by_cases hit : col.inserir_itens = true
          · rw [if_neg (by rw [hit]; simp)]
            by_cases hpg : col.inserir_pagamentos = true
            · rw [if_neg (by rw [hpg]; simp)]
              cases hbx : (baixarEstoque col.registrar_mov
                  (validar_disponibilidade col.produtos c).1.itens).1 with
              | some item =>
                exact ⟨by simp, fun _ => carrinho_pos_validar col.produtos c⟩
              | none =>
                exact ⟨fun _ => rfl, by simp⟩
            · rw [if_pos (by simp [Bool.not_eq_true] at hpg; rw [hpg]; simp)]
              exact ⟨by simp, fun _ => carrinho_pos_validar col.produtos c⟩
          · rw [if_pos (by simp [Bool.not_eq_true] at hit; rw [hit]; simp)]
            exact ⟨by simp, fun _ => carrinho_pos_validar col.produtos c⟩
      · rw [if_pos (by simp [Bool.not_eq_true] at hpag; rw [hpag]; simp)]
        exact ⟨by simp, fun _ => carrinho_pos_validar col.produtos c⟩
    · rw [if_pos (by simp [Bool.not_eq_true] at hdisp; rw [hdisp]; simp)]
      exact ⟨by simp, fun _ => carrinho_pos_validar col.produtos c⟩

/-- Witness for C9: a successful finalize clears the cart, and a finalize
that fails at the header insert leaves the one-line cart intact. -/
theorem C9_limpeza_witness :
    ((finalizar_venda
        ⟨fun pid => if pid = 1 then some ⟨10, 5, "A"⟩ else none, some 7, true,
         true, fun _ => true⟩
        ⟨[⟨1, "A", 2, 10, 5⟩], 0, 0⟩ [⟨"dinheiro", 20, none⟩]).sucesso = true →
      (finalizar_venda
        ⟨fun pid => if pid = 1 then some ⟨10, 5, "A"⟩ else none, some 7, true,
         true, fun _ => true⟩
        ⟨[⟨1, "A", 2, 10, 5⟩], 0, 0⟩ [⟨"dinheiro", 20, none⟩]).carrinho =
        carrinhoVazio) ∧
    ((finalizar_venda
        ⟨fun pid => if pid = 1 then some ⟨10, 5, "A"⟩ else none, some 7, true,
         true, fun _ => true⟩
        ⟨[⟨1, "A", 2, 10, 5⟩], 0, 0⟩ [⟨"dinheiro", 20, none⟩]).sucesso = false →
      (finalizar_venda
        ⟨fun pid => if pid = 1 then some ⟨10, 5, "A"⟩ else none, some 7, true,
         true, fun _ => true⟩
        ⟨[⟨1, "A", 2, 10, 5⟩], 0, 0⟩ [⟨"dinheiro", 20, none⟩]).carrinho.desconto_percentual =
          (⟨[⟨1, "A", 2, 10, 5⟩], 0, 0⟩ : Carrinho).desconto_percentual ∧
        (finalizar_venda
          ⟨fun pid => if pid = 1 then some ⟨10, 5, "A"⟩ else none, some 7, true,
           true, fun _ => true⟩
          ⟨[⟨1, "A", 2, 10, 5⟩], 0, 0⟩ [⟨"dinheiro", 20, none⟩]).carrinho.desconto_valor =
          (⟨[⟨1, "A", 2, 10, 5⟩], 0, 0⟩ : Carrinho).desconto_valor ∧
        itensSalvoEstoque
          (finalizar_venda
            ⟨fun pid => if pid = 1 then some ⟨10, 5, "A"⟩ else none, some 7, true,
             true, fun _ => true⟩
            ⟨[⟨1, "A", 2, 10, 5⟩], 0, 0⟩ [⟨"dinheiro", 20, none⟩]).carrinho.itens
          (⟨[⟨1, "A", 2, 10, 5⟩], 0, 0⟩ : Carrinho).itens = true) :=
  C9_limpeza
    ⟨fun pid => if pid = 1 then some ⟨10, 5, "A"⟩ else none, some 7, true,
     true, fun _ => true⟩
    ⟨[⟨1, "A", 2, 10, 5⟩], 0, 0⟩ [⟨"dinheiro", 20, none⟩]

/-- Claim C4: with every line item complete, `cancelar_venda` attempts a
restock call for every line (one per line, not stopping at failures);
when at least one call fails it returns failure while the sale remains
marked cancelled, and the message lists the descriptions of exactly the
failed products and tells the operator to check stock manually. -/
theorem C4_estorno (venda : Venda) (mov : Int → Bool) (venda_id : Int)
    (hst : ¬ venda.status = "cancelada")
    (hbf : venda.itens.all bemFormado = true)
    (hne : venda.itens ≠ [])
    (hfail : falhasEstorno mov venda.itens ≠ []) :
    cancelar_venda ⟨some venda, true, mov⟩ venda_id =
      ⟨false,
       "Venda #" ++ toString venda_id ++
         " foi marcada como cancelada, mas houve erro ao estornar o estoque dos seguintes produtos: " ++
         String.intercalate ", " (falhasEstorno mov venda.itens) ++
         ". Verifique o estoque manualmente.",
       true, venda.itens.filterMap dadosItem⟩ ∧
    (venda.itens.filterMap dadosItem).length = venda.itens.length := by
  constructor
  · unfold cancelar_venda
    dsimp only
    rw [if_neg hst, if_neg (by simp), if_neg hne, estornarItens_spec]
    dsimp only
    rw [if_neg hfail]
  · exact filterMap_isSome_length dadosItem venda.itens
      (fun it hit => List.all_eq_true.mp hbf it hit)

/-- Witness for C4: a two-item sale where only the second restock fails;
every line is attempted and only product B is reported. -/
theorem C4_estorno_witness :
    cancelar_venda
      ⟨some ⟨"finalizada", [⟨some 1, some 2, some "A"⟩, ⟨some 2, some 1, some "B"⟩]⟩,
       true, fun pid => pid == 1⟩ 9 =
      ⟨false,
       "Venda #" ++ toString (9 : Int) ++
         " foi marcada como cancelada, mas houve erro ao estornar o estoque dos seguintes produtos: " ++
         String.intercalate ", " (falhasEstorno (fun pid => pid == 1)
           [⟨some 1, some 2, some "A"⟩, ⟨some 2, some 1, some "B"⟩]) ++
         ". Verifique o estoque manualmente.",
       true,
       [(⟨some 1, some 2, some "A"⟩ : ItemVenda),
        ⟨some 2, some 1, some "B"⟩].filterMap dadosItem⟩ ∧
    ([(⟨some 1, some 2, some "A"⟩ : ItemVenda),
      ⟨some 2, some 1, some "B"⟩].filterMap dadosItem).length =
      ([(⟨some 1, some 2, some "A"⟩ : ItemVenda),
        ⟨some 2, some 1, some "B"⟩] : List ItemVenda).length :=
  C4_estorno ⟨"finalizada", [⟨some 1, some 2, some "A"⟩, ⟨some 2, some 1, some "B"⟩]⟩
    (fun pid => pid == 1) 9 (by decide) (by decide) (by decide) (by decide)

/-- Claim C10: the restock loop of `cancelar_venda` silently skips any
line item whose produto_id or quantidade is missing or zero (no call
attempted, never reported as failed), and a sale whose items all have
quantity 0 is cancelled with success, claiming the full item count
restored while no restock call was made. -/
theorem C10_itens_incompletos (mov : Int → Bool) (it : ItemVenda)
    (itens : List ItemVenda) (venda : Venda) (venda_id : Int)
    (hskip : dadosItem it = none)
    (hst : ¬ venda.status = "cancelada")
    (hne : venda.itens ≠ [])
    (hzero : ∀ x ∈ venda.itens, x.quantidade = some 0) :
    estornarItens mov (it :: itens) = estornarItens mov itens ∧
    cancelar_venda ⟨some venda, true, mov⟩ venda_id =
      ⟨true,
       "Venda #" ++ toString venda_id ++
         " cancelada com sucesso. Estoque restaurado para " ++
         toString venda.itens.length ++ " item(ns).", true, []⟩ := by
  constructor
  · simp only [estornarItens, hskip]
  · have hnone : ∀ x ∈ venda.itens, dadosItem x = none := by
      intro x hx
      unfold dadosItem
      rw [hzero x hx]
      cases x.produto_id <;> simp
    unfold cancelar_venda
    dsimp only
    rw [if_neg hst, if_neg (by simp), if_neg hne,
      estornarItens_pulados mov venda.itens hnone]
    rfl

/-- Witness for C10: an item with no product id is skipped, and a
one-item sale whose item has quantity 0 cancels with success claiming
one item restored. -/
theorem C10_itens_incompletos_witness :
    estornarItens (fun _ => false) [⟨none, some 3, none⟩, ⟨some 4, some 5, none⟩] =
      estornarItens (fun _ => false) [⟨some 4, some 5, none⟩] ∧
    cancelar_venda
      ⟨some ⟨"finalizada", [⟨some 1, some 0, none⟩]⟩, true, fun _ => false⟩ 3 =
      ⟨true,
       "Venda #" ++ toString (3 : Int) ++
         " cancelada com sucesso. Estoque restaurado para " ++
         toString ([(⟨some 1, some 0, none⟩ : ItemVenda)] : List ItemVenda).length ++
         " item(ns).", true, []⟩ :=
  C10_itens_incompletos (fun _ => false) ⟨none, some 3, none⟩
    [⟨some 4, some 5, none⟩] ⟨"finalizada", [⟨some 1, some 0, none⟩]⟩ 3
    (by decide) (by decide) (by decide)
    (by intro x hx; simp at hx; rw [hx])

end Vendas
